import Mathlib

/-!
Verification of the `MutationServer` client/transport layer
(`src/mutation-server/mutation-server.ts`, given as `src/unnamed/part_000`).

The TypeScript source is shallowly embedded: each relevant handler or
method body becomes a pure Lean function, and the event-driven parts
(WebSocket events, child-process stdout events, rxjs subscriptions)
become explicit folds of step functions over event traces.  External
library behaviour (`JSON.parse`, the `ws` socket, node's event emitter,
the Promise API) is modelled at its interface: a frame arrives together
with its parse outcome, a promise is a settle-once cell, an `.on`
listener stays registered until removed (and the source never removes
the ones in question).
-/

namespace MutationServer

/-- A JSON value, as produced by a successful `JSON.parse`.  Numbers are
modelled as integers; the claims under study only inspect ids and tokens,
for which integral values suffice (truthiness of `0` is the relevant
edge). -/
inductive JsonValue where
  | null
  | bool (b : Bool)
  | num (n : Int)
  | str (s : String)
  | arr (elems : List JsonValue)
  | obj (fields : List (String × JsonValue))

/-- JavaScript truthiness of a defined value: `null`, `false`, `0` and
`""` are falsy; every array and object is truthy. -/
def jsTruthy : JsonValue → Bool
  | .null => false
  | .bool b => b
  | .num n => n != 0
  | .str s => s != ""
  | .arr _ => true
  | .obj _ => true

/-- JavaScript property access `v.name`: `none` models `undefined`
(absent field, or access on a non-object). -/
def getField (v : JsonValue) (name : String) : Option JsonValue :=
  match v with
  | .obj fields => fields.lookup name
  | _ => none

/-- JavaScript `!x` where `x` may be `undefined` (`none`). -/
def jsFalsyOpt : Option JsonValue → Bool
  | none => true
  | some v => !jsTruthy v

/-- An inbound text frame together with its `JSON.parse` outcome
(`JSON.parse` is an external library call; the embedding takes its
result as the frame's shape). -/
inductive Frame where
  | malformed (raw : String)
  | parsed (v : JsonValue)

/-- What the `message` handler of `connectViaWebSocket`
(part_000 lines 127–146) does with one frame. -/
inductive HandlerAction where
  | logParseError (msg : String)
  | notifyRouter (v : JsonValue)
  | rpcReceive (v : JsonValue)
  | dropFalsy

def HandlerAction.isNotify : HandlerAction → Bool
  | .notifyRouter _ => true
  | _ => false

def HandlerAction.isRpc : HandlerAction → Bool
  | .rpcReceive _ => true
  | _ => false

/-- The `message` handler of `connectViaWebSocket`, lines 127–146:
on parse failure log `Error parsing JSON: <raw>` and return; on success,
`if (response)` guards out falsy parses, then
`const isNotification = !response.id` routes to the notification subject
or to `rpcClient.receive`. -/
def onMessage : Frame → HandlerAction
  | .malformed raw => .logParseError ("Error parsing JSON: " ++ raw)
  | .parsed v =>
    if jsTruthy v then
      if jsFalsyOpt (getField v "id") then .notifyRouter v
      else .rpcReceive v
    else .dropFalsy

/-- Observable state of the connection's message path: what was logged,
what reached the Notification Router, what reached the RPC resolver, and
whether the connection is still alive.  The handler body contains no
`close`/`terminate` call and its only `try` swallows the parse error, so
no step ever clears `alive`. -/
structure ConnState where
  errorLog : List String
  routed : List JsonValue
  resolved : List JsonValue
  alive : Bool

def connInit : ConnState := ⟨[], [], [], true⟩

/-- One frame's effect on the connection state. -/
def connStep (st : ConnState) (f : Frame) : ConnState :=
  match onMessage f with
  | .logParseError m => { st with errorLog := st.errorLog ++ [m] }
  | .notifyRouter v => { st with routed := st.routed ++ [v] }
  | .rpcReceive v => { st with resolved := st.resolved ++ [v] }
  | .dropFalsy => st

def connRun (fs : List Frame) : ConnState := fs.foldl connStep connInit

/-- Log entries produced by a frame list. -/
def connErrors (fs : List Frame) : List String :=
  fs.filterMap fun f =>
    match onMessage f with
    | .logParseError m => some m
    | _ => none

/-- Messages a frame list delivers to the Notification Router. -/
def connRouted (fs : List Frame) : List JsonValue :=
  fs.filterMap fun f =>
    match onMessage f with
    | .notifyRouter v => some v
    | _ => none

/-- Messages a frame list delivers to the RPC resolver. -/
def connResolved (fs : List Frame) : List JsonValue :=
  fs.filterMap fun f =>
    match onMessage f with
    | .rpcReceive v => some v
    | _ => none

theorem connStep_spec (st : ConnState) (f : Frame) :
    connStep st f =
      ⟨st.errorLog ++ connErrors [f], st.routed ++ connRouted [f],
       st.resolved ++ connResolved [f], st.alive⟩ := by
  simp only [connStep, connErrors, connRouted, connResolved, List.filterMap]
  cases h : onMessage f <;> simp [h]

/-- The fold is componentwise a `filterMap`: the handler is stateless
per frame and never kills the connection. -/
theorem connRun_spec (fs : List Frame) (st : ConnState) :
    fs.foldl connStep st =
      ⟨st.errorLog ++ connErrors fs, st.routed ++ connRouted fs,
       st.resolved ++ connResolved fs, st.alive⟩ := by
  induction fs generalizing st with
  | nil => simp [connErrors, connRouted, connResolved]
  | cons f fs ih =>
    rw [List.foldl_cons, ih, connStep_spec]
    have hE : connErrors (f :: fs) = connErrors [f] ++ connErrors fs := by
      simp only [connErrors, List.filterMap]
      cases onMessage f <;> simp
    have hR : connRouted (f :: fs) = connRouted [f] ++ connRouted fs := by
      simp only [connRouted, List.filterMap]
      cases onMessage f <;> simp
    have hV : connResolved (f :: fs) = connResolved [f] ++ connResolved fs := by
      simp only [connResolved, List.filterMap]
      cases onMessage f <;> simp
    simp [hE, hR, hV]

/-!
Section: Progress notifications and `mutate` subscriptions

`progressNotification$` (part_000 lines 20–24) is the notification
subject filtered to `method === 'progress'` and mapped to the params.
Each `mutate` call (lines 100–122) pipes it further through
`filter (progress.token === params.partialResultToken)` and
`map (progress.value)` and subscribes `onPartialResult`.  The embedding
keeps the registry of live per-call subscriptions explicitly and logs
every callback invocation as a `(callId, value)` pair; tokens are
modelled as strings (the spec calls them opaque strings), `===` is
string equality.
-/

/-- One live per-call progress subscription: a token paired with the
identity of the `mutate` call whose `onPartialResult` it invokes. -/
structure Subscription where
  token : String
  callId : Nat
deriving DecidableEq

/-- The shape `ProgressParams`: what a `progress` notification's params carry. -/
structure ProgressParams where
  token : String
  value : JsonValue

/-- Which callbacks one progress event reaches: exactly the
subscriptions whose rxjs `filter` predicate
`progress.token === params.partialResultToken` passes. -/
def dispatchProgress (subs : List Subscription) (token : String) : List Nat :=
  (subs.filter fun s => s.token == token).map (·.callId)

/-- Operations observable on the `mutate`/progress machinery. -/
inductive MutOp where
  | mutateStart (token : String) (callId : Nat)
  | mutateSettled (callId : Nat)
  | progressEvent (p : ProgressParams)

/-- Live subscriptions plus the log of callback invocations. -/
structure MutState where
  subs : List Subscription
  calls : List (Nat × JsonValue)

def mutInit : MutState := ⟨[], []⟩

/-- One operation's effect.  `mutateStart` is the `subscribe` performed
at lines 112–117 before the request is issued; `mutateSettled` is the
request promise settling (line 119 resumes, `withProgress` callback
returns) — the method body holds no `unsubscribe` on any path, so the
subscription registry is untouched; `progressEvent` is the notification
subject firing through the filtered pipes. -/
def mutStep (st : MutState) : MutOp → MutState
  | .mutateStart t c => { st with subs := st.subs ++ [⟨t, c⟩] }
  | .mutateSettled _ => st
  | .progressEvent p =>
    { st with
      calls := st.calls ++ (dispatchProgress st.subs p.token).map fun c => (c, p.value) }

def mutRun (ops : List MutOp) : MutState := ops.foldl mutStep mutInit

/-!
Section: Port discovery (`waitForMutationServerStarted`, lines 166–176)

The method returns `new Promise((resolve) => ...)`: the executor only
ever references `resolve`, registers a `data` listener on
`process.stdout` with `.on` (never removed), and on each chunk runs
`/Server is listening on port: (\d+)/.exec(chunk)`, calling
`resolve(parseInt(match[1], 10))` on a match.  The embedding folds the
promise cell over the process's event trace, counting `resolve` calls so
that re-matching after settlement stays observable.
-/

/-- Events observable from the child process while the wait is pending. -/
inductive ProcEvent where
  | data (chunk : String)
  | exit (code : Int)

/-- Longest `[0-9]*` prefix, the greedy `(\d+)` capture at a position. -/
def takeDigits : List Char → List Char
  | [] => []
  | c :: cs => if c.isDigit then c :: takeDigits cs else []

/-- The conversion `parseInt(digits, 10)` for a nonempty digit string. -/
def digitsToNat (l : List Char) : Nat :=
  l.foldl (fun acc c => acc * 10 + (c.toNat - 48)) 0

/-- The literal part of the banner regex. -/
def bannerLit : List Char := "Server is listening on port: ".data

/-- First match of `/Server is listening on port: (\d+)/` in a chunk:
the earliest position where the literal is followed by at least one
digit, capturing the maximal digit run there. -/
def scanBanner : List Char → Option Nat
  | [] => none
  | c :: cs =>
    if bannerLit.isPrefixOf (c :: cs) then
      let ds := takeDigits ((c :: cs).drop bannerLit.length)
      if ds.isEmpty then scanBanner cs else some (digitsToNat ds)
    else scanBanner cs

/-- Running the banner regex `exec` on a whole stdout chunk. -/
def execBanner (chunk : String) : Option Nat := scanBanner chunk.data

/-- How the number-promise of `waitForMutationServerStarted` can be
settled.  The Promise API offers `resolve` and `reject`; a faithful
model carries both, and the theorems show the executor reaches only
`resolvedWith`. -/
inductive PortSettled where
  | resolvedWith (port : Nat)
  | rejectedWith (err : String)
deriving DecidableEq

/-- The promise cell together with the listener bookkeeping:
`settled` is the settle-once state, `resolveCalls` counts how many times
the executor invoked `resolve`, and `dataListenerAttached` records the
`.on('data', ...)` registration, which no code path removes. -/
structure PortWaitState where
  settled : Option PortSettled
  resolveCalls : Nat
  dataListenerAttached : Bool
deriving DecidableEq

def portWaitInit : PortWaitState := ⟨none, 0, true⟩

/-- One process event's effect on the wait.  Only the `data` listener
belongs to this promise; the `exit` listener (line 53) merely logs, so
an exit leaves the promise untouched.  A second `resolve` on a settled
promise is a no-op on `settled`. -/
def portWaitStep (st : PortWaitState) : ProcEvent → PortWaitState
  | .data chunk =>
    if st.dataListenerAttached then
      match execBanner chunk with
      | some p =>
        { st with
          settled := match st.settled with
            | none => some (.resolvedWith p)
            | some s => some s,
          resolveCalls := st.resolveCalls + 1 }
      | none => st
    else st
  | .exit _ => st

def waitForMutationServerStarted (events : List ProcEvent) : PortWaitState :=
  events.foldl portWaitStep portWaitInit

/-!
Section: Socket open-wait (`waitForOpenSocket`, lines 154–164) and the
Section: RPC send adapter (`connect`, lines 76–79)

`waitForOpenSocket` runs its executor synchronously: if
`socket.readyState !== socket.OPEN` it registers `socket.on('open',
resolve)`; otherwise it calls `resolve()` at once.  The executor never
references `reject` and registers no `error`/`close` listener.  The send
adapter passed to `JSONRPCClient` awaits this promise and only then
calls `webSocket.send(...)`; the continuation runs at the point the
promise resolves.
-/

/-- The `ws` ready states. -/
inductive ReadyState where
  | connecting
  | opened
  | closing
  | closed
deriving DecidableEq

/-- Immediate effect of calling `waitForOpenSocket` on a socket in the
given ready state: whether `resolve()` ran synchronously and whether an
`open` listener was registered. -/
structure OpenWaitCall where
  resolvedNow : Bool
  openListenerAdded : Bool
deriving DecidableEq

def waitForOpenSocket (rs : ReadyState) : OpenWaitCall :=
  if rs ≠ ReadyState.opened then ⟨false, true⟩ else ⟨true, false⟩

/-- Socket events after the call. -/
inductive SockEvent where
  | openEvt
  | errorEvt (e : String)
  | closeEvt
deriving DecidableEq

/-- Settlement state of the `void` promise; `rejected` is part of the
Promise interface and the theorems show it is unreachable here. -/
inductive UnitPromise where
  | pending
  | resolved
  | rejected (e : String)
deriving DecidableEq

/-- One socket event's effect on the promise: only the registered
`open` listener can settle it; error and close events have no handler
attached to this promise. -/
def openWaitStep (listenerAdded : Bool) (st : UnitPromise) (e : SockEvent) : UnitPromise :=
  match st, e with
  | .pending, .openEvt => if listenerAdded then .resolved else .pending
  | s, _ => s

/-- The promise's state after the socket has gone through `events`
since the `waitForOpenSocket` call made at ready state `rs`. -/
def openWaitAfter (rs : ReadyState) (events : List SockEvent) : UnitPromise :=
  events.foldl (openWaitStep (waitForOpenSocket rs).openListenerAdded)
    (if (waitForOpenSocket rs).resolvedNow then .resolved else .pending)

/-- Ready-state evolution of the socket itself. -/
def rsStep (rs : ReadyState) : SockEvent → ReadyState
  | .openEvt => .opened
  | .closeEvt => .closed
  | .errorEvt _ => rs

def rsAfter (rs : ReadyState) (events : List SockEvent) : ReadyState :=
  events.foldl rsStep rs

/-- Index of the first `open` event in a trace, if any. -/
def firstOpenIdx : List SockEvent → Option Nat
  | [] => none
  | SockEvent.openEvt :: _ => some 0
  | _ :: es => (firstOpenIdx es).map (· + 1)

/-- At which point of the trace the send adapter's continuation
(`webSocket.send(JSON.stringify(request))`, line 78) runs: position `0`
if `waitForOpenSocket` resolved synchronously, otherwise just after the
first `open` event; `none` if the awaited promise never resolves. -/
def sendFiresAt (rs : ReadyState) (events : List SockEvent) : Option Nat :=
  if (waitForOpenSocket rs).resolvedNow then some 0
  else (firstOpenIdx events).map (· + 1)

/-!
Section: Constructor (lines 26–64)

The constructor reads `mutationServerExecutablePath` and
`mutationServerPort` from configuration; `if (!path)` (truthiness, so
an unset or empty path) logs and throws; it then spawns with
`['--port', port.toString()]` when a port is configured; a spawn that
yields `pid === undefined` logs and throws.  `spawn` itself is the
OS boundary, so its pid outcome is a parameter.
-/

inductive CtorError where
  | pathNotSet
  | serverFailed
deriving DecidableEq

/-- The successfully constructed instance's process facts. -/
structure SpawnedProcess where
  exePath : String
  args : List String
  pid : Nat
deriving DecidableEq

/-- The `--port` argument list built at lines 37–41 (`if
(mutationServerPort)`: truthy check, so a configured port `0` is also
skipped — irrelevant for a real port). -/
def ctorArgs (port : Option Nat) : List String :=
  match port with
  | some p => if p ≠ 0 then ["--port", toString p] else []
  | none => []

/-- JS truthiness of the optional path string (`!path`). -/
def pathFalsy : Option String → Bool
  | none => true
  | some s => s == ""

/-- What the constructor passes to `logger.logError`: the configured
`pathNotSet` message (line 33), or the spawn-failure message built from
the attempted path and port (lines 46–49). -/
inductive CtorLog where
  | pathNotSetMsg
  | spawnFailedMsg (path : String) (port : Option Nat)
deriving DecidableEq

/-- The constructor body as a function of configuration and spawn
outcome: returns the `logError` log produced and either the raised
error or the constructed instance.  `spawnPid` is consulted only when a
spawn is attempted. -/
def mutationServerCtor (path : Option String) (port : Option Nat)
    (spawnPid : Option Nat) : List CtorLog × Except CtorError SpawnedProcess :=
  if pathFalsy path then
    ([CtorLog.pathNotSetMsg], Except.error CtorError.pathNotSet)
  else
    match spawnPid with
    | none =>
      ([CtorLog.spawnFailedMsg (path.getD "") port], Except.error CtorError.serverFailed)
    | some pid =>
      ([], Except.ok ⟨path.getD "", ctorArgs port, pid⟩)

/-!
Section: Claim C1: notification vs. response classification
-/

/-- C1 counterexample: the frame `{"id":0,"result":[]}` parses
successfully and carries an `id` field, yet `const isNotification =
!response.id` treats the falsy id `0` as absent and delivers the
message to the Notification Router, not to the RPC resolver — so
presence/absence of the `id` field is not the discriminant the code
applies. -/
theorem C1_id_zero_misrouted :
    (getField (JsonValue.obj [("id", JsonValue.num 0), ("result", JsonValue.arr [])])
        "id").isSome = true ∧
    (onMessage (Frame.parsed
        (JsonValue.obj [("id", JsonValue.num 0), ("result", JsonValue.arr [])]))).isNotify
      = true ∧
    (onMessage (Frame.parsed
        (JsonValue.obj [("id", JsonValue.num 0), ("result", JsonValue.arr [])]))).isRpc
      = false := by
  decide

/-- C1 (amended): a successfully parsed, truthy message is classified
solely by the JavaScript truthiness of its `id` field: if the field is
absent or falsy (`null`, `0`, `""`, `false`) the message goes to the
Notification Router and never to the RPC resolver; if the `id` is
truthy it goes to the RPC resolver and never to the Notification
Router. -/
theorem C1_classified_by_id_truthiness (v : JsonValue) (hv : jsTruthy v = true) :
    (onMessage (Frame.parsed v) = HandlerAction.notifyRouter v ↔
      jsFalsyOpt (getField v "id") = true) ∧
    (onMessage (Frame.parsed v) = HandlerAction.rpcReceive v ↔
      jsFalsyOpt (getField v "id") = false) := by
  simp only [onMessage, hv, if_true]
  by_cases h : jsFalsyOpt (getField v "id") = true <;> simp [h]

/-- C1 witness: the notification `{"method":"progress"}` (no id) is
truthy and is classified by the theorem's discriminant. -/
theorem C1_classified_by_id_truthiness_witness :
    jsTruthy (JsonValue.obj [("method", JsonValue.str "progress")]) = true ∧
    ((onMessage (Frame.parsed (JsonValue.obj [("method", JsonValue.str "progress")]))
        = HandlerAction.notifyRouter (JsonValue.obj [("method", JsonValue.str "progress")]) ↔
      jsFalsyOpt (getField (JsonValue.obj [("method", JsonValue.str "progress")]) "id")
        = true) ∧
     (onMessage (Frame.parsed (JsonValue.obj [("method", JsonValue.str "progress")]))
        = HandlerAction.rpcReceive (JsonValue.obj [("method", JsonValue.str "progress")]) ↔
      jsFalsyOpt (getField (JsonValue.obj [("method", JsonValue.str "progress")]) "id")
        = false)) :=
  ⟨by decide, C1_classified_by_id_truthiness _ (by decide)⟩

/-!
Section: Claim C7: malformed frames are logged, dropped and harmless
-/

/-- C7: a frame that fails to parse is logged and dropped without
killing the connection: the run containing the malformed frame keeps
the connection alive, delivers exactly the same messages to the
Notification Router and to the RPC resolver as the run without it, and
records the parse-error log entry. -/
theorem C7_malformed_frame_recovery (pre : List Frame) (raw : String) (post : List Frame) :
    (connRun (pre ++ Frame.malformed raw :: post)).alive = true ∧
    (connRun (pre ++ Frame.malformed raw :: post)).routed = (connRun (pre ++ post)).routed ∧
    (connRun (pre ++ Frame.malformed raw :: post)).resolved
      = (connRun (pre ++ post)).resolved ∧
    ("Error parsing JSON: " ++ raw) ∈ (connRun (pre ++ Frame.malformed raw :: post)).errorLog := by
  have hbad := connRun_spec (pre ++ Frame.malformed raw :: post) connInit
  have hgood := connRun_spec (pre ++ post) connInit
  simp only [connRun] at *
  rw [hbad, hgood]
  refine ⟨rfl, ?_, ?_, ?_⟩
  · simp [connRouted, List.filterMap_append, onMessage]
  · simp [connResolved, List.filterMap_append, onMessage]
  · simp [connErrors, connInit, List.filterMap_append, onMessage]

/-!
Section: Claim C2: subscription teardown on call completion
-/

/-- C2 failing run: a `mutate` call with token `"t1"` subscribes, its
request settles, and a later progress event carrying `"t1"` still
invokes the call's `onPartialResult` — the method body (lines 100–122)
discards the rxjs `Subscription` and unsubscribes on no path, so the
claimed teardown never happens. -/
theorem C2_no_teardown_after_completion :
    (mutRun [MutOp.mutateStart "t1" 1, MutOp.mutateSettled 1,
             MutOp.progressEvent ⟨"t1", JsonValue.null⟩]).subs = [⟨"t1", 1⟩] ∧
    (mutRun [MutOp.mutateStart "t1" 1, MutOp.mutateSettled 1,
             MutOp.progressEvent ⟨"t1", JsonValue.null⟩]).calls
      = [(1, JsonValue.null)] := by
  constructor <;> simp [mutRun, mutInit, mutStep, dispatchProgress]

/-!
Section: Claim C3: per-token isolation of progress events
-/

/-- C3: with two concurrent `mutate` calls subscribed under distinct
tokens `t1` and `t2`, a progress event carrying `t1` invokes only the
`t1` call's callback (never the `t2` one), and an event whose token
matches no live subscription invokes no callback at all (and the
dispatch is a total function — no error is raised). -/
theorem C3_progress_token_isolation (st : MutState) (t1 t2 : String) (c1 c2 : Nat)
    (v : JsonValue) (hne : t1 ≠ t2) (hsubs : st.subs = [⟨t1, c1⟩, ⟨t2, c2⟩]) :
    (mutStep st (MutOp.progressEvent ⟨t1, v⟩)).calls = st.calls ++ [(c1, v)] ∧
    ∀ t, t ≠ t1 → t ≠ t2 →
      (mutStep st (MutOp.progressEvent ⟨t, v⟩)).calls = st.calls := by
  have h21 : (t2 == t1) = false := by simp [hne.symm]
  constructor
  · simp [mutStep, dispatchProgress, hsubs, h21]
  · intro t ht1 ht2
    have h1 : (t1 == t) = false := by simp [ht1.symm]
    have h2 : (t2 == t) = false := by simp [ht2.symm]
    simp [mutStep, dispatchProgress, hsubs, h1, h2]

/-- C3 witness: the spec's own example, tokens `"t1"` and `"t2"` with
callbacks `1` and `2`, an event for `"t1"` and an event for the unknown
token `"t3"`. -/
theorem C3_progress_token_isolation_witness :
    ("t1" : String) ≠ "t2" ∧
    (MutState.mk [⟨"t1", 1⟩, ⟨"t2", 2⟩] []).subs = [⟨"t1", 1⟩, ⟨"t2", 2⟩] ∧
    ((mutStep (MutState.mk [⟨"t1", 1⟩, ⟨"t2", 2⟩] [])
        (MutOp.progressEvent ⟨"t1", JsonValue.null⟩)).calls
      = (MutState.mk [⟨"t1", 1⟩, ⟨"t2", 2⟩] []).calls ++ [(1, JsonValue.null)] ∧
     ∀ t, t ≠ "t1" → t ≠ "t2" →
      (mutStep (MutState.mk [⟨"t1", 1⟩, ⟨"t2", 2⟩] [])
          (MutOp.progressEvent ⟨t, JsonValue.null⟩)).calls
        = (MutState.mk [⟨"t1", 1⟩, ⟨"t2", 2⟩] []).calls) :=
  ⟨by decide, rfl,
   C3_progress_token_isolation (MutState.mk [⟨"t1", 1⟩, ⟨"t2", 2⟩] [])
     "t1" "t2" 1 2 JsonValue.null (by decide) rfl⟩

/-!
Section: Port-wait lemmas
-/

theorem portWaitStep_listener (st : PortWaitState) (e : ProcEvent) :
    (portWaitStep st e).dataListenerAttached = st.dataListenerAttached := by
  cases e with
  | data chunk =>
    simp only [portWaitStep]
    by_cases h : st.dataListenerAttached <;> cases hb : execBanner chunk <;> simp [h, hb]
  | exit code => rfl

/-- No event ever detaches the stdout `data` listener: the source
contains no `removeListener`/`off` for it. -/
theorem portWaitRun_listener (events : List ProcEvent) (st : PortWaitState) :
    (events.foldl portWaitStep st).dataListenerAttached = st.dataListenerAttached := by
  induction events generalizing st with
  | nil => rfl
  | cons e es ih => rw [List.foldl_cons, ih, portWaitStep_listener]

theorem portWaitStep_mono (st : PortWaitState) (e : ProcEvent) (s : PortSettled)
    (h : st.settled = some s) : (portWaitStep st e).settled = some s := by
  cases e with
  | data chunk =>
    simp only [portWaitStep]
    by_cases hl : st.dataListenerAttached <;> cases hb : execBanner chunk <;> simp [hl, hb, h]
  | exit code => exact h

/-- A settled promise stays settled with the same value: later
`resolve` calls are no-ops. -/
theorem portWaitRun_mono (events : List ProcEvent) (st : PortWaitState) (s : PortSettled)
    (h : st.settled = some s) : (events.foldl portWaitStep st).settled = some s := by
  induction events generalizing st with
  | nil => exact h
  | cons e es ih => exact ih _ (portWaitStep_mono st e s h)

theorem portWaitStep_no_reject (st : PortWaitState) (e : ProcEvent) (msg : String)
    (h : (portWaitStep st e).settled = some (PortSettled.rejectedWith msg)) :
    st.settled = some (PortSettled.rejectedWith msg) := by
  cases e with
  | data chunk =>
    simp only [portWaitStep] at h
    by_cases hl : st.dataListenerAttached <;> simp [hl] at h
    · cases hb : execBanner chunk <;> simp [hb] at h
      · exact h
      · cases hs : st.settled <;> simp [hs] at h
        exact congrArg some h
    · exact h
  | exit code => exact h

/-- The executor never references `reject`: no run rejects the
promise. -/
theorem portWaitRun_no_reject (events : List ProcEvent) (st : PortWaitState) (msg : String)
    (h : st.settled ≠ some (PortSettled.rejectedWith msg)) :
    (events.foldl portWaitStep st).settled ≠ some (PortSettled.rejectedWith msg) := by
  induction events generalizing st with
  | nil => exact h
  | cons e es ih =>
    intro hc
    exact ih (portWaitStep st e) (fun hs => h (portWaitStep_no_reject st e msg hs)) hc

/-- While only banner-free chunks (and exits) arrive, the promise stays
unsettled. -/
theorem portWaitRun_pending (events : List ProcEvent) (st : PortWaitState)
    (h0 : st.settled = none)
    (h : ∀ c, ProcEvent.data c ∈ events → execBanner c = none) :
    (events.foldl portWaitStep st).settled = none := by
  induction events generalizing st with
  | nil => exact h0
  | cons e es ih =>
    rw [List.foldl_cons]
    refine ih _ ?_ (fun c hc => h c (List.mem_cons_of_mem e hc))
    cases e with
    | data chunk =>
      have hb : execBanner chunk = none := h chunk (List.mem_cons_self _ _)
      simp only [portWaitStep, hb]
      by_cases hl : st.dataListenerAttached <;> simp [hl, h0]
    | exit code => exact h0

/-!
Section: Claim C4: behaviour when the process exits before the banner
-/

/-- C4 counterexample: after the process exits with no banner observed,
the wait is still pending (`settled = none`), and no event trace
whatsoever can make it fail — the promise executor of
`waitForMutationServerStarted` never references `reject`, so "eventually
fails" is unreachable. -/
theorem C4_exit_leaves_wait_pending :
    (waitForMutationServerStarted [ProcEvent.exit 1]).settled = none ∧
    ∀ events msg, (waitForMutationServerStarted events).settled
      ≠ some (PortSettled.rejectedWith msg) := by
  refine ⟨by decide, fun events msg => ?_⟩
  exact portWaitRun_no_reject events portWaitInit msg (by simp [portWaitInit])

/-- C4 (amended): if the process exits before any banner-matching chunk
and no such chunk ever arrives, the wait remains pending forever — it
neither resolves nor fails. -/
theorem C4_no_banner_wait_hangs (events : List ProcEvent)
    (h : ∀ c, ProcEvent.data c ∈ events → execBanner c = none) :
    (waitForMutationServerStarted events).settled = none :=
  portWaitRun_pending events portWaitInit rfl h

/-- C4 witness: a banner-free startup line followed by a crash leaves
the wait pending. -/
theorem C4_no_banner_wait_hangs_witness :
    (∀ c, ProcEvent.data c ∈ [ProcEvent.data "engine booting", ProcEvent.exit 1] →
      execBanner c = none) ∧
    (waitForMutationServerStarted [ProcEvent.data "engine booting", ProcEvent.exit 1]).settled
      = none := by
  have h : ∀ c, ProcEvent.data c ∈ [ProcEvent.data "engine booting", ProcEvent.exit 1] →
      execBanner c = none := by
    intro c hc
    simp only [List.mem_cons, List.not_mem_nil, or_false] at hc
    rcases hc with hc | hc
    · cases hc; decide
    · cases hc
  exact ⟨h, C4_no_banner_wait_hangs _ h⟩

/-!
Section: Claim C5: single-shot port discovery
-/

/-- C5 counterexample: after the first banner chunk resolves the wait
with port 1, a second banner-like chunk is still scanned and matched —
`resolve` is invoked a second time (`resolveCalls = 2`) because the
`data` listener was registered with `.on` and is never removed
(`dataListenerAttached` is still `true`); only promise settle-once
semantics keeps the value at 1.  This refutes the claimed
unsubscription and non-re-matching. -/
theorem C5_listener_never_removed :
    waitForMutationServerStarted
        [ProcEvent.data "Server is listening on port: 1",
         ProcEvent.data "Server is listening on port: 2"]
      = ⟨some (PortSettled.resolvedWith 1), 2, true⟩ := by
  decide

/-- C5 (amended): the wait resolves with the decimal port taken from
the first banner-matching stdout chunk, and the resolved value never
changes afterwards (later `resolve` calls hit an already-settled
promise); however the stdout listener is never unsubscribed, so later
banner-like chunks are still scanned and re-matched, with no effect on
the resolved value. -/
theorem C5_first_banner_wins (pre : List ProcEvent) (c : String) (p : Nat)
    (post : List ProcEvent)
    (hpre : ∀ c', ProcEvent.data c' ∈ pre → execBanner c' = none)
    (hc : execBanner c = some p) :
    (waitForMutationServerStarted (pre ++ ProcEvent.data c :: post)).settled
      = some (PortSettled.resolvedWith p) ∧
    (waitForMutationServerStarted (pre ++ ProcEvent.data c :: post)).dataListenerAttached
      = true := by
  unfold waitForMutationServerStarted
  rw [List.foldl_append, List.foldl_cons]
  have h1 : (pre.foldl portWaitStep portWaitInit).settled = none :=
    portWaitRun_pending pre portWaitInit rfl hpre
  have h2 : (pre.foldl portWaitStep portWaitInit).dataListenerAttached = true :=
    portWaitRun_listener pre portWaitInit
  have hstep :
      (portWaitStep (pre.foldl portWaitStep portWaitInit) (ProcEvent.data c)).settled
        = some (PortSettled.resolvedWith p) := by
    simp [portWaitStep, h2, hc, h1]
  refine ⟨portWaitRun_mono post _ _ hstep, ?_⟩
  rw [portWaitRun_listener, portWaitStep_listener, h2]

/-- C5 witness: a boot message, then the banner for port 4321, then a
later banner-like line for port 9999: the wait resolves with 4321 and
the listener is still attached. -/
theorem C5_first_banner_wins_witness :
    (∀ c', ProcEvent.data c' ∈ [ProcEvent.data "engine booting"] → execBanner c' = none) ∧
    execBanner "Server is listening on port: 4321" = some 4321 ∧
    (waitForMutationServerStarted
        ([ProcEvent.data "engine booting"] ++
          ProcEvent.data "Server is listening on port: 4321" ::
            [ProcEvent.data "Server is listening on port: 9999"])).settled
      = some (PortSettled.resolvedWith 4321) ∧
    (waitForMutationServerStarted
        ([ProcEvent.data "engine booting"] ++
          ProcEvent.data "Server is listening on port: 4321" ::
            [ProcEvent.data "Server is listening on port: 9999"])).dataListenerAttached
      = true := by
  have h : ∀ c', ProcEvent.data c' ∈ [ProcEvent.data "engine booting"] →
      execBanner c' = none := by
    intro c' hc'
    simp only [List.mem_cons, List.not_mem_nil, or_false] at hc'
    cases hc'; decide
  have hmain := C5_first_banner_wins [ProcEvent.data "engine booting"]
    "Server is listening on port: 4321" 4321
    [ProcEvent.data "Server is listening on port: 9999"] h (by decide)
  exact ⟨h, by decide, hmain.1, hmain.2⟩

/-!
Section: Open-wait lemmas
-/

theorem openWaitStep_resolved_absorbs (b : Bool) (e : SockEvent) :
    openWaitStep b UnitPromise.resolved e = UnitPromise.resolved := by
  cases e <;> rfl

theorem openWaitRun_resolved (b : Bool) (l : List SockEvent) :
    l.foldl (openWaitStep b) UnitPromise.resolved = UnitPromise.resolved := by
  induction l with
  | nil => rfl
  | cons e es ih => rw [List.foldl_cons, openWaitStep_resolved_absorbs, ih]

/-- With the `open` listener registered, the promise resolves exactly
when an `open` event occurs, and can reach no other settled state. -/
theorem openWaitRun_char (l : List SockEvent) :
    l.foldl (openWaitStep true) UnitPromise.pending
      = if SockEvent.openEvt ∈ l then UnitPromise.resolved else UnitPromise.pending := by
  induction l with
  | nil => simp
  | cons e es ih =>
    rw [List.foldl_cons]
    by_cases he : e = SockEvent.openEvt
    · subst he
      rw [show openWaitStep true UnitPromise.pending SockEvent.openEvt
            = UnitPromise.resolved from rfl, openWaitRun_resolved]
      simp
    · have hstep : openWaitStep true UnitPromise.pending e = UnitPromise.pending := by
        cases e
        · exact absurd rfl he
        · rfl
        · rfl
      rw [hstep, ih]
      simp [List.mem_cons, Ne.symm he]

theorem firstOpenIdx_eq_none (l : List SockEvent) (h : SockEvent.openEvt ∉ l) :
    firstOpenIdx l = none := by
  induction l with
  | nil => rfl
  | cons e es ih =>
    have he : e ≠ SockEvent.openEvt := fun hc => h (hc ▸ List.mem_cons_self e es)
    have hes : SockEvent.openEvt ∉ es := fun hc => h (List.mem_cons_of_mem e hc)
    cases e
    · exact absurd rfl he
    · simp [firstOpenIdx, ih hes]
    · simp [firstOpenIdx, ih hes]

/-- Right after the first `open` event of the trace, the socket's ready
state is `opened`. -/
theorem rsAfter_firstOpen (events : List SockEvent) (j : Nat)
    (h : firstOpenIdx events = some j) (rs : ReadyState) :
    rsAfter rs (events.take (j + 1)) = ReadyState.opened := by
  induction events generalizing j rs with
  | nil => simp [firstOpenIdx] at h
  | cons e es ih =>
    cases e with
    | openEvt =>
      have hj : j = 0 := by simpa [firstOpenIdx] using h.symm
      subst hj
      simp [rsAfter, rsStep]
    | errorEvt msg =>
      simp only [firstOpenIdx, Option.map_eq_some'] at h
      obtain ⟨j', hj', rfl⟩ := h
      rw [List.take_succ_cons]
      have hrec := ih j' hj' (rsStep rs (SockEvent.errorEvt msg))
      simpa [rsAfter] using hrec
    | closeEvt =>
      simp only [firstOpenIdx, Option.map_eq_some'] at h
      obtain ⟨j', hj', rfl⟩ := h
      rw [List.take_succ_cons]
      have hrec := ih j' hj' (rsStep rs SockEvent.closeEvt)
      simpa [rsAfter] using hrec

/-!
Section: Claim C6: no send before the socket is open
-/

/-- C6: whenever the RPC send adapter's continuation actually runs —
immediately if `waitForOpenSocket` resolved synchronously, or right
after the first `open` event otherwise — the socket's ready state at
that point of the trace is `opened`: `send` is never invoked on a
non-open socket. -/
theorem C6_send_only_after_open (rs : ReadyState) (events : List SockEvent) (i : Nat)
    (h : sendFiresAt rs events = some i) :
    rsAfter rs (events.take i) = ReadyState.opened := by
  unfold sendFiresAt at h
  by_cases hr : (waitForOpenSocket rs).resolvedNow
  · have hrs : rs = ReadyState.opened := by
      by_contra hne
      simp [waitForOpenSocket, hne] at hr
    rw [if_pos hr] at h
    have hi : i = 0 := (Option.some.inj h).symm
    subst hi
    simp [rsAfter, hrs]
  · rw [if_neg hr] at h
    cases hfo : firstOpenIdx events with
    | none => rw [hfo] at h; exact absurd h (by simp)
    | some j =>
      rw [hfo, Option.map_some'] at h
      have hi : j + 1 = i := Option.some.inj h
      subst hi
      exact rsAfter_firstOpen events j hfo rs

/-- C6 witness: from a connecting socket, with an error event followed
by the open event, the send fires at position 2, where the socket is
open. -/
theorem C6_send_only_after_open_witness :
    sendFiresAt ReadyState.connecting [SockEvent.errorEvt "x", SockEvent.openEvt]
      = some 2 ∧
    rsAfter ReadyState.connecting
        ([SockEvent.errorEvt "x", SockEvent.openEvt].take 2) = ReadyState.opened :=
  ⟨by decide,
   C6_send_only_after_open ReadyState.connecting
     [SockEvent.errorEvt "x", SockEvent.openEvt] 2 (by decide)⟩

/-!
Section: Claim C9: idempotence of the open-wait
-/

/-- C9: `waitForOpenSocket` called on an already-open socket resolves
synchronously and registers no `open` listener; called on a socket in
any other state it registers the listener, stays pending while no
`open` event occurs, and resolves once the next `open` event arrives. -/
theorem C9_openWait_idempotent (rs : ReadyState) (events : List SockEvent) :
    (rs = ReadyState.opened → waitForOpenSocket rs = ⟨true, false⟩) ∧
    (rs ≠ ReadyState.opened →
      (waitForOpenSocket rs).openListenerAdded = true ∧
      (SockEvent.openEvt ∉ events → openWaitAfter rs events = UnitPromise.pending) ∧
      openWaitAfter rs (events ++ [SockEvent.openEvt]) = UnitPromise.resolved) := by
  constructor
  · intro h
    subst h
    simp [waitForOpenSocket]
  · intro h
    have hw : waitForOpenSocket rs = ⟨false, true⟩ := by simp [waitForOpenSocket, h]
    refine ⟨by rw [hw], ?_, ?_⟩
    · intro hno
      simp [openWaitAfter, hw, openWaitRun_char, hno]
    · simp only [openWaitAfter, hw, List.foldl_append]
      by_cases hm : SockEvent.openEvt ∈ events <;>
        simp [openWaitRun_char, hm, openWaitStep]

/-- C9 witness: at states `opened` and `connecting`, with an error
event as the non-open traffic. -/
theorem C9_openWait_idempotent_witness :
    waitForOpenSocket ReadyState.opened = ⟨true, false⟩ ∧
    (waitForOpenSocket ReadyState.connecting).openListenerAdded = true ∧
    openWaitAfter ReadyState.connecting [SockEvent.errorEvt "x"] = UnitPromise.pending ∧
    openWaitAfter ReadyState.connecting ([SockEvent.errorEvt "x"] ++ [SockEvent.openEvt])
      = UnitPromise.resolved :=
  ⟨(C9_openWait_idempotent ReadyState.opened []).1 rfl,
   ((C9_openWait_idempotent ReadyState.connecting [SockEvent.errorEvt "x"]).2
     (by decide)).1,
   ((C9_openWait_idempotent ReadyState.connecting [SockEvent.errorEvt "x"]).2
     (by decide)).2.1 (by decide),
   ((C9_openWait_idempotent ReadyState.connecting [SockEvent.errorEvt "x"]).2
     (by decide)).2.2⟩

/-!
Section: Claim C10: the open-wait never rejects; sends hang with it
-/

/-- C10: the promise returned by `waitForOpenSocket` can never reject,
and if the socket is not open and no `open` event ever arrives (e.g. it
errors and closes instead), the promise stays pending and the send
adapter's continuation never runs — the RPC send neither reaches the
socket nor fails. -/
theorem C10_openWait_never_rejects (rs : ReadyState) (events : List SockEvent) :
    (∀ msg, openWaitAfter rs events ≠ UnitPromise.rejected msg) ∧
    (rs ≠ ReadyState.opened → SockEvent.openEvt ∉ events →
      openWaitAfter rs events = UnitPromise.pending ∧ sendFiresAt rs events = none) := by
  constructor
  · intro msg
    by_cases h : rs = ReadyState.opened
    · subst h
      simp [openWaitAfter, waitForOpenSocket, openWaitRun_resolved]
    · have hw : waitForOpenSocket rs = ⟨false, true⟩ := by simp [waitForOpenSocket, h]
      simp only [openWaitAfter, hw]
      by_cases hm : SockEvent.openEvt ∈ events <;> simp [openWaitRun_char, hm]
  · intro h hno
    have hw : waitForOpenSocket rs = ⟨false, true⟩ := by simp [waitForOpenSocket, h]
    refine ⟨by simp [openWaitAfter, hw, openWaitRun_char, hno], ?_⟩
    simp [sendFiresAt, hw, firstOpenIdx_eq_none events hno]

/-- C10 witness: a connecting socket that errors and closes without
ever opening. -/
theorem C10_openWait_never_rejects_witness :
    (∀ msg, openWaitAfter ReadyState.connecting [SockEvent.errorEvt "refused", SockEvent.closeEvt]
      ≠ UnitPromise.rejected msg) ∧
    openWaitAfter ReadyState.connecting [SockEvent.errorEvt "refused", SockEvent.closeEvt]
      = UnitPromise.pending ∧
    sendFiresAt ReadyState.connecting [SockEvent.errorEvt "refused", SockEvent.closeEvt]
      = none :=
  ⟨(C10_openWait_never_rejects ReadyState.connecting
      [SockEvent.errorEvt "refused", SockEvent.closeEvt]).1,
   ((C10_openWait_never_rejects ReadyState.connecting
      [SockEvent.errorEvt "refused", SockEvent.closeEvt]).2 (by decide) (by decide)).1,
   ((C10_openWait_never_rejects ReadyState.connecting
      [SockEvent.errorEvt "refused", SockEvent.closeEvt]).2 (by decide) (by decide)).2⟩

/-!
Section: Claim C8: fatal construction errors
-/

/-- C8: construction fails exactly in the two fatal cases — an unset
(falsy) executable path, or a spawn yielding no pid — and in each case
the matching message is passed to `logger.logError` and the error is
raised, so no instance is produced; with a usable path and a pid the
constructor logs no error, raises nothing, and yields the instance with
the spawned path, the `--port` arguments, and the pid. -/
theorem C8_ctor_fatal_exactly_on_misconfig_or_spawn (path : Option String)
    (port : Option Nat) (spawnPid : Option Nat) :
    (pathFalsy path = true →
      mutationServerCtor path port spawnPid
        = ([CtorLog.pathNotSetMsg], Except.error CtorError.pathNotSet)) ∧
    (pathFalsy path = false → spawnPid = none →
      mutationServerCtor path port spawnPid
        = ([CtorLog.spawnFailedMsg (path.getD "") port],
           Except.error CtorError.serverFailed)) ∧
    (∀ pid, pathFalsy path = false → spawnPid = some pid →
      mutationServerCtor path port spawnPid
        = ([], Except.ok ⟨path.getD "", ctorArgs port, pid⟩)) := by
  refine ⟨fun h => ?_, fun h hs => ?_, fun pid h hs => ?_⟩
  · simp [mutationServerCtor, h]
  · simp [mutationServerCtor, h, hs]
  · simp [mutationServerCtor, h, hs]

/-- C8 witness: unset path fails and logs; a good path with pid 42 and
port 8080 builds the instance with no log. -/
theorem C8_ctor_fatal_witness :
    pathFalsy none = true ∧
    mutationServerCtor none (some 8080) (some 42)
      = ([CtorLog.pathNotSetMsg], Except.error CtorError.pathNotSet) ∧
    pathFalsy (some "/usr/bin/engine") = false ∧
    mutationServerCtor (some "/usr/bin/engine") (some 8080) (some 42)
      = ([], Except.ok ⟨"/usr/bin/engine", ["--port", "8080"], 42⟩) :=
  ⟨by decide,
   (C8_ctor_fatal_exactly_on_misconfig_or_spawn none (some 8080) (some 42)).1 (by decide),
   by decide,
   by
     have h := (C8_ctor_fatal_exactly_on_misconfig_or_spawn (some "/usr/bin/engine")
       (some 8080) (some 42)).2.2 42 (by decide) rfl
     rw [h]
     rfl⟩

end MutationServer
